import Mathlib

/-!
Shallow embedding of the fplbase SDL input backend (src/src/input_sdl.cpp).
Covered: the mouse/touch arms of InputSystem::UpdateEvents, the joystick hat
and axis handlers, the Android gamepad queue and its per-frame drain, and the
HeadMountedDisplayInput orientation correction.  Machine floats are modelled
as exact rationals; SDL and Android NDK constants carry their public numeric
values.  Entities that live in the repository files input.h / input.cpp
(absent from the sources here) are modelled from the spec and marked as such
in their doc comments.
-/

namespace Fplbase

/-- Modelled from the spec: the edge-tracked `Button` state of input.h /
input.cpp (absent here): is_down plus the two per-frame edge flags. -/
structure Button where
  is_down : Bool
  went_down : Bool
  went_up : Bool
deriving DecidableEq

def Button.init : Button := ⟨false, false, false⟩

/-- Modelled from the spec: `Button::Update(down)` (input.cpp, absent here)
sets `is_down` and raises the matching edge flag only when the new value
differs from the previous `is_down`. -/
def Button.Update (b : Button) (down : Bool) : Button :=
  { is_down := down
    went_down := b.went_down || (!b.is_down && down)
    went_up := b.went_up || (b.is_down && !down) }

/-- Pointwise update of a function-modelled array slot. -/
def updFn {α β : Type} [DecidableEq α] (f : α → β) (a : α) (v : β) : α → β :=
  fun x => if x = a then v else f x

/-! Gamepad logical control codes.  Modelled from the spec: the enum
`Gamepad::GamepadInputButton` is declared in the missing header input.h; the
spec lists the controls Up/Down/Left/Right/A/B/C/X/Y/Z/L1/R1/L2/R2/ThumbL/
ThumbR/Back/Start/Select/Mode in that order, giving `kControlCount = 20`,
with `kInvalid = -1`. -/

def kUp : Int := 0
def kDown : Int := 1
def kLeft : Int := 2
def kRight : Int := 3
def kButtonA : Int := 4
def kButtonB : Int := 5
def kButtonC : Int := 6
def kButtonX : Int := 7
def kButtonY : Int := 8
def kButtonZ : Int := 9
def kButtonL1 : Int := 10
def kButtonR1 : Int := 11
def kButtonL2 : Int := 12
def kButtonR2 : Int := 13
def kButtonThumbL : Int := 14
def kButtonThumbR : Int := 15
def kButtonBack : Int := 16
def kButtonStart : Int := 17
def kButtonSelect : Int := 18
def kButtonMode : Int := 19
def kControlCount : Nat := 20
def kInvalid : Int := -1

/-- Modelled from the spec: the Android `Gamepad` record (input.h, absent
here): a controller id plus one Button per logical control, indexed by the
control code. -/
structure Gamepad where
  controller_id : Int
  buttons : Int → Button

def Gamepad.init (cid : Int) : Gamepad := ⟨cid, fun _ => Button.init⟩

/-- `Gamepad::GetButton(index)` followed by `Button::Update(down)`: in-place
update of `button_list_[index]`. -/
def Gamepad.UpdateButton (g : Gamepad) (index : Int) (down : Bool) : Gamepad :=
  { g with buttons := updFn g.buttons index ((g.buttons index).Update down) }

/-! Android NDK key codes (public values from android/keycodes.h) and key
event actions (android/input.h). -/

def AKEYCODE_BACK : Int := 4
def AKEYCODE_DPAD_UP : Int := 19
def AKEYCODE_DPAD_DOWN : Int := 20
def AKEYCODE_DPAD_LEFT : Int := 21
def AKEYCODE_DPAD_RIGHT : Int := 22
def AKEYCODE_DPAD_CENTER : Int := 23
def AKEYCODE_MENU : Int := 82
def AKEYCODE_BUTTON_A : Int := 96
def AKEYCODE_BUTTON_B : Int := 97
def AKEYCODE_BUTTON_C : Int := 98
def AKEYCODE_BUTTON_X : Int := 99
def AKEYCODE_BUTTON_Y : Int := 100
def AKEYCODE_BUTTON_Z : Int := 101
def AKEYCODE_BUTTON_L1 : Int := 102
def AKEYCODE_BUTTON_R1 : Int := 103
def AKEYCODE_BUTTON_L2 : Int := 104
def AKEYCODE_BUTTON_R2 : Int := 105
def AKEYCODE_BUTTON_THUMBL : Int := 106
def AKEYCODE_BUTTON_THUMBR : Int := 107
def AKEYCODE_BUTTON_START : Int := 108
def AKEYCODE_BUTTON_SELECT : Int := 109
def AKEYCODE_BUTTON_MODE : Int := 110

def AKEY_EVENT_ACTION_DOWN : Int := 0
def AKEY_EVENT_ACTION_UP : Int := 1
def AMOTION_EVENT_ACTION_MOVE : Int := 2

/-- The static table `kJavaToGamepadMap` of
`Gamepad::GetGamepadCodeFromJavaKeyCode`, in source order (22 entries). -/
def kJavaToGamepadMap : List (Int × Int) :=
  [(AKEYCODE_DPAD_UP, kUp),
   (AKEYCODE_DPAD_DOWN, kDown),
   (AKEYCODE_DPAD_LEFT, kLeft),
   (AKEYCODE_DPAD_RIGHT, kRight),
   (AKEYCODE_DPAD_CENTER, kButtonA),
   (AKEYCODE_BUTTON_A, kButtonA),
   (AKEYCODE_BUTTON_B, kButtonB),
   (AKEYCODE_BUTTON_C, kButtonC),
   (AKEYCODE_BUTTON_X, kButtonX),
   (AKEYCODE_BUTTON_Y, kButtonY),
   (AKEYCODE_BUTTON_Z, kButtonZ),
   (AKEYCODE_BUTTON_L1, kButtonL1),
   (AKEYCODE_BUTTON_R1, kButtonR1),
   (AKEYCODE_BUTTON_L2, kButtonL2),
   (AKEYCODE_BUTTON_R2, kButtonR2),
   (AKEYCODE_BUTTON_THUMBL, kButtonThumbL),
   (AKEYCODE_BUTTON_THUMBR, kButtonThumbR),
   (AKEYCODE_BACK, kButtonBack),
   (AKEYCODE_BUTTON_START, kButtonStart),
   (AKEYCODE_BUTTON_SELECT, kButtonSelect),
   (AKEYCODE_MENU, kButtonSelect),
   (AKEYCODE_BUTTON_MODE, kButtonMode)]

/-- Bounded linear scan: at most `n` leading entries of the table are
inspected, mirroring `for (int i = 0; i < Gamepad::kControlCount; i++)`. -/
def lookupJavaKeyCode : Nat → List (Int × Int) → Int → Int
  | 0, _, _ => kInvalid
  | _ + 1, [], _ => kInvalid
  | n + 1, p :: rest, k => if p.1 = k then p.2 else lookupJavaKeyCode n rest k

/-- `Gamepad::GetGamepadCodeFromJavaKeyCode`: scans the first `kControlCount`
entries of `kJavaToGamepadMap` and returns `kInvalid` when no scanned entry
matches. -/
def GetGamepadCodeFromJavaKeyCode (java_keycode : Int) : Int :=
  lookupJavaKeyCode kControlCount kJavaToGamepadMap java_keycode

/-- The cross-thread event record queued by the Android gamepad path. -/
structure AndroidInputEvent where
  device_id : Int
  event_code : Int
  control_code : Int
  x : ℚ
  y : ℚ
deriving DecidableEq

def kMaxAndroidEventsPerFrame : Nat := 100

/-- `InputSystem::ReceiveGamepadEvent`: pushes the event when the queue holds
fewer than `kMaxAndroidEventsPerFrame` entries, otherwise drops it. -/
def ReceiveGamepadEvent (q : List AndroidInputEvent) (e : AndroidInputEvent) :
    List AndroidInputEvent :=
  if q.length < kMaxAndroidEventsPerFrame then q ++ [e] else q

/-- The `AMOTION_EVENT_ACTION_MOVE` arm of `InputSystem::HandleGamepadEvents`:
thresholds x/y against the deadzone and overwrites the four directional
Buttons.  `kGamepadHatThreshold` is declared in the missing header input.h
and its value is not recorded in the spec, so it is taken as a parameter. -/
def HandleGamepadMotion (kGamepadHatThreshold x y : ℚ) (g : Gamepad) : Gamepad :=
  let left : Bool := decide (x < -kGamepadHatThreshold)
  let right : Bool := decide (x > kGamepadHatThreshold)
  let up : Bool := decide (y < -kGamepadHatThreshold)
  let down : Bool := decide (y > kGamepadHatThreshold)
  ((((g.UpdateButton kLeft left).UpdateButton kRight right).UpdateButton
      kUp up).UpdateButton kDown down)

/-- Insert-or-modify on the `gamepad_map_`, mirroring the create-on-miss
behaviour of `InputSystem::GetGamepad` followed by mutation through the
returned reference. -/
def updateGamepadAt : List (Int × Gamepad) → Int → (Gamepad → Gamepad) →
    List (Int × Gamepad)
  | [], cid, f => [(cid, f (Gamepad.init cid))]
  | p :: rest, cid, f =>
      if p.1 = cid then (p.1, f p.2) :: rest else p :: updateGamepadAt rest cid f

/-- One iteration of the drain loop in `InputSystem::HandleGamepadEvents`:
`GetGamepad(event.device_id)` (creating on miss), then the switch on
`event.event_code`. -/
def processAndroidEvent (kGamepadHatThreshold : ℚ) (m : List (Int × Gamepad))
    (e : AndroidInputEvent) : List (Int × Gamepad) :=
  updateGamepadAt m e.device_id (fun g =>
    if e.event_code = AKEY_EVENT_ACTION_DOWN then
      let button_index := GetGamepadCodeFromJavaKeyCode e.control_code
      if button_index ≠ kInvalid then g.UpdateButton button_index true else g
    else if e.event_code = AKEY_EVENT_ACTION_UP then
      let button_index := GetGamepadCodeFromJavaKeyCode e.control_code
      if button_index ≠ kInvalid then g.UpdateButton button_index false else g
    else if e.event_code = AMOTION_EVENT_ACTION_MOVE then
      HandleGamepadMotion kGamepadHatThreshold e.x e.y g
    else g)

/-- `InputSystem::HandleGamepadEvents`: drains the queue front-to-back
through `processAndroidEvent`, then swaps the queue with an empty one. -/
def HandleGamepadEvents (kGamepadHatThreshold : ℚ) (m : List (Int × Gamepad))
    (q : List AndroidInputEvent) : List (Int × Gamepad) × List AndroidInputEvent :=
  (q.foldl (processAndroidEvent kGamepadHatThreshold) m, [])

/-- Read accessor on the gamepad map used to state theorems: the record found
for the id, or a fresh one (as `InputSystem::GetGamepad` would create). -/
def lookupGamepad (m : List (Int × Gamepad)) (cid : Int) : Gamepad :=
  match m.find? (fun p => p.1 == cid) with
  | some p => p.2
  | none => Gamepad.init cid

/-! SDL joystick hat constants (public values from SDL_joystick.h). -/

def SDL_HAT_CENTERED : Nat := 0
def SDL_HAT_UP : Nat := 1
def SDL_HAT_RIGHT : Nat := 2
def SDL_HAT_RIGHTUP : Nat := 3
def SDL_HAT_DOWN : Nat := 4
def SDL_HAT_RIGHTDOWN : Nat := 6
def SDL_HAT_LEFT : Nat := 8
def SDL_HAT_LEFTUP : Nat := 9
def SDL_HAT_LEFTDOWN : Nat := 12

/-- `InputSystem::ConvertHatToVector`, case arms in source order; the default
arm logs an error and returns the zero vector. -/
def ConvertHatToVector (hat_enum : Nat) : Int × Int :=
  if hat_enum = SDL_HAT_LEFTUP then (-1, -1)
  else if hat_enum = SDL_HAT_UP then (0, -1)
  else if hat_enum = SDL_HAT_RIGHTUP then (1, -1)
  else if hat_enum = SDL_HAT_LEFT then (-1, 0)
  else if hat_enum = SDL_HAT_CENTERED then (0, 0)
  else if hat_enum = SDL_HAT_RIGHT then (1, 0)
  else if hat_enum = SDL_HAT_LEFTDOWN then (-1, 1)
  else if hat_enum = SDL_HAT_DOWN then (0, 1)
  else if hat_enum = SDL_HAT_RIGHTDOWN then (1, 1)
  else (0, 0)

/-- Maximum range (plus or minus) generated by joystick axis events. -/
def kJoystickAxisRange : ℚ := 32767

/-- Modelled from the spec: the per-device `Joystick` axis store (input.h /
input.cpp, absent here), reduced to the axis array the axis handler writes. -/
structure Joystick where
  axes : Nat → ℚ

def Joystick.init : Joystick := ⟨fun _ => 0⟩

/-- Modelled from the spec: `Joystick::SetAxis` stores `axes[index] = value`. -/
def Joystick.SetAxis (j : Joystick) (index : Nat) (v : ℚ) : Joystick :=
  { j with axes := updFn j.axes index v }

/-- The `SDL_JOYAXISMOTION` arm of `InputSystem::HandleJoystickEvent`:
`SetAxis(axis, value / kJoystickAxisRange)`. -/
def HandleJoystickAxisEvent (j : Joystick) (axis : Nat) (raw : Int) : Joystick :=
  j.SetAxis axis ((raw : ℚ) / kJoystickAxisRange)

/-! Pointer state and the mouse/touch arms of `InputSystem::UpdateEvents`.
The pointer-slot primitives (`FindPointer`, `RemovePointer`,
`GetPointerButton`) live in input.cpp / input.h, absent here, and are
modelled from the spec.  Each primitive also appends an entry to an
operation log so that the order in which the UpdateEvents arms invoke them
is part of the model. -/

/-- One pointer slot: platform finger id, position, accumulated delta and
the in-use flag. -/
structure Pointer where
  id : Nat
  mousepos : Int × Int
  mousedelta : Int × Int
  used : Bool
deriving DecidableEq

def pointerInit : Pointer := ⟨0, (0, 0), (0, 0), false⟩

/-- The pointer-slot primitives recorded in the operation log. -/
inductive PtrOp where
  | find : Nat → PtrOp
  | remove : Nat → PtrOp
  | button : Nat → Bool → PtrOp
deriving DecidableEq

/-- In-place update of the i-th list element (no-op out of range). -/
def listModify {α : Type} (f : α → α) : Nat → List α → List α
  | _, [] => []
  | 0, x :: xs => f x :: xs
  | n + 1, x :: xs => x :: listModify f n xs

/-- The slice of InputSystem state the mouse/touch arms touch: the pointer
slots, their Buttons (keyed by ordinal), the `touch_device_` flag, and the
operation log. -/
structure InputState where
  pointers : List Pointer
  pointerButtons : Nat → Button
  touch_device : Bool
  log : List PtrOp

/-- Modelled from the spec: the scan inside `InputSystem::FindPointer` over
the slots, in order, for a used slot whose platform id matches. -/
def findPointerAux (fid : Nat) : List Pointer → Nat → Option Nat
  | [], _ => none
  | p :: rest, i => if p.used ∧ p.id = fid then some i else findPointerAux fid rest (i + 1)

/-- Modelled from the spec: `InputSystem::FindPointer` returns the matching
ordinal, falling back to ordinal 0 when no slot matches. -/
def FindPointer (ps : List Pointer) (fid : Nat) : Nat :=
  (findPointerAux fid ps 0).getD 0

/-- Modelled from the spec: `InputSystem::FindPointer` as a state operation,
logged. -/
def InputState.findPointerOp (s : InputState) (fid : Nat) : Nat × InputState :=
  (FindPointer s.pointers fid, { s with log := s.log ++ [PtrOp.find fid] })

/-- Modelled from the spec: `InputSystem::RemovePointer(i)` frees the slot
(marks it unused) for reuse. -/
def InputState.removePointerOp (s : InputState) (i : Nat) : InputState :=
  { s with pointers := listModify (fun p => { p with used := false }) i s.pointers
           log := s.log ++ [PtrOp.remove i] }

/-- `GetPointerButton(i).Update(down)`: update of the Button keyed by the
pointer ordinal, logged. -/
def InputState.updatePointerButtonOp (s : InputState) (i : Nat) (down : Bool) :
    InputState :=
  { s with pointerButtons := updFn s.pointerButtons i ((s.pointerButtons i).Update down)
           log := s.log ++ [PtrOp.button i down] }

/-- The `SDL_FINGERUP` arm of `InputSystem::UpdateEvents`, in source order:
set `touch_device_`, `FindPointer`, `RemovePointer`, then
`GetPointerButton(i).Update(false)`. -/
def fingerUpCase (s : InputState) (fingerId : Nat) : InputState :=
  let s1 := { s with touch_device := true }
  let r := s1.findPointerOp fingerId
  let s2 := r.2.removePointerOp r.1
  s2.updatePointerButtonOp r.1 false

/-- The contact-end handler in the order the claim states it (release the
button before freeing the slot); named for comparison against
`fingerUpCase`, which follows the source order. -/
def fingerUpCaseClaimOrder (s : InputState) (fingerId : Nat) : InputState :=
  let s1 := { s with touch_device := true }
  let r := s1.findPointerOp fingerId
  let s2 := r.2.updatePointerButtonOp r.1 false
  s2.removePointerOp r.1

/-- The `SDL_MOUSEBUTTONDOWN` / `SDL_MOUSEBUTTONUP` arm of
`InputSystem::UpdateEvents`: clear `touch_device_`, update
`GetPointerButton(event.button.button - 1)`, write `pointers_[0].mousepos`
only when the windowID is nonzero, then set `pointers_[0].used`.  (The
FPLBASE_ANDROID_VR trigger notification in that arm is outside the modelled
build configuration.) -/
def mouseButtonCase (s : InputState) (sdl_button : Nat) (pressed : Bool)
    (windowID : Nat) (x y : Int) : InputState :=
  let s1 := { s with touch_device := false }
  let s2 := s1.updatePointerButtonOp (sdl_button - 1) pressed
  let s3 :=
    if windowID ≠ 0 then
      { s2 with pointers := listModify (fun p => { p with mousepos := (x, y) }) 0 s2.pointers }
    else s2
  { s3 with pointers := listModify (fun p => { p with used := true }) 0 s3.pointers }

/-- A fresh InputState with ten pointer slots (the fixed slot count is in the
missing header; its exact value is immaterial to the claims). -/
def inputStateInit : InputState :=
  ⟨List.replicate 10 pointerInit, fun _ => Button.init, false, []⟩

/-! Head-mounted-display orientation correction
(`HeadMountedDisplayInput::UpdateTransforms`).  The mathfu rotation
constructors at the quarter-turn angles used by the source are exact:
RotationY(angle) has rows ((cos, 0, sin), (0, 1, 0), (-sin, 0, cos)) and
RotationZ(angle) rows ((cos, -sin, 0), (sin, cos, 0), (0, 0, 1)); the
(cos, sin) pairs are (0, 1) at M_PI_2, (0, -1) at -M_PI_2 and (-1, 0) at
both M_PI and -M_PI.  The mat4 embeds the 3x3 rotation with a trailing 1. -/

abbrev M4 := Matrix (Fin 4) (Fin 4) ℚ

/-- `mat4::FromRotationMatrix(mathfu::mat3::RotationY(angle))` with
`c = cos angle`, `s = sin angle`. -/
def rotY4 (c s : ℚ) : M4 :=
  !![c, 0, s, 0; 0, 1, 0, 0; -s, 0, c, 0; 0, 0, 0, 1]

/-- `mat4::FromRotationMatrix(mathfu::mat3::RotationZ(angle))` with
`c = cos angle`, `s = sin angle`. -/
def rotZ4 (c s : ℚ) : M4 :=
  !![c, -s, 0, 0; s, c, 0, 0; 0, 0, 1, 0; 0, 0, 0, 1]

/-- The `pre_correction` matrix computed by the switch in
`HeadMountedDisplayInput::UpdateTransforms`, as a function of
`device_orientation_` and `device_orientation_at_reset_`. -/
def preCorrection (orient reset : Int) : M4 :=
  if orient = 0 then
    (if reset = 2 then rotY4 0 1 * rotY4 (-1) 0 else rotY4 0 1)
  else if orient = 1 then
    (if reset = 3 then rotY4 (-1) 0 else 1)
  else if orient = 2 then
    (if reset = 0 then rotY4 0 (-1) * rotY4 (-1) 0 else rotY4 0 (-1))
  else if orient = 3 then
    (if reset ≠ 1 then rotY4 (-1) 0 else 1)
  else 1

/-- The `post_correction` matrix computed by the same switch. -/
def postCorrection (orient : Int) : M4 :=
  if orient = 0 then rotZ4 0 (-1)
  else if orient = 2 then rotZ4 0 1
  else if orient = 3 then rotZ4 (-1) 0
  else 1

/-- The pre-rotation of each orientation before any reset-mismatch
adjustment (the value `pre_correction` holds just before the adjustment
`if` in each case arm). -/
def basePreCorrection (orient : Int) : M4 :=
  if orient = 0 then rotY4 0 1
  else if orient = 2 then rotY4 0 (-1)
  else 1

/-- The reset/current orientation pairs the claim allows for the extra
180-degree adjustment: the 0-and-180 and 90-and-270 cross-cases only
(orientations coded 0..3 for 0/90/180/270 degrees). -/
abbrev crossCase (orient reset : Int) : Prop :=
  (orient = 0 ∧ reset = 2) ∨ (orient = 2 ∧ reset = 0) ∨
    (orient = 1 ∧ reset = 3) ∨ (orient = 3 ∧ reset = 1)

/-- The pairs at which the source actually applies the adjustment: the three
cross-cases (0,2), (2,0), (1,3), and at orientation 3 every reset value
other than 1. -/
abbrev adjustmentCase (orient reset : Int) : Prop :=
  (orient = 0 ∧ reset = 2) ∨ (orient = 2 ∧ reset = 0) ∨
    (orient = 1 ∧ reset = 3) ∨ (orient = 3 ∧ reset ≠ 1)

/-- This definition follows the claim text, for comparison with
`preCorrection`: the 180-degree adjustment multiplied in exactly on the
cross-cases. -/
def preCorrectionClaimed (orient reset : Int) : M4 :=
  if crossCase orient reset then basePreCorrection orient * rotY4 (-1) 0
  else basePreCorrection orient

/-- The HeadMountedDisplayInput fields read or written by
`UpdateTransforms`. -/
structure HeadMountedDisplayState where
  head_transform : M4
  left_eye_transform : M4
  right_eye_transform : M4
  device_orientation : Int
  device_orientation_at_reset : Int
  use_device_orientation_correction : Bool

/-- `HeadMountedDisplayInput::UpdateTransforms`: store the raw transforms
fetched from the platform bridge, then, when correction is enabled, replace
each by `post_correction * transform * pre_correction`. -/
def UpdateTransforms (raw_head raw_left raw_right : M4)
    (s : HeadMountedDisplayState) : HeadMountedDisplayState :=
  let s1 := { s with head_transform := raw_head
                     left_eye_transform := raw_left
                     right_eye_transform := raw_right }
  if s.use_device_orientation_correction then
    let post_correction := postCorrection s.device_orientation
    let pre_correction := preCorrection s.device_orientation s.device_orientation_at_reset
    { s1 with
        head_transform := post_correction * s1.head_transform * pre_correction
        left_eye_transform := post_correction * s1.left_eye_transform * pre_correction
        right_eye_transform := post_correction * s1.right_eye_transform * pre_correction }
  else s1

/-! Theorems. -/

theorem receive_length_le (q : List AndroidInputEvent) (e : AndroidInputEvent)
    (h : q.length ≤ kMaxAndroidEventsPerFrame) :
    (ReceiveGamepadEvent q e).length ≤ kMaxAndroidEventsPerFrame := by
  unfold ReceiveGamepadEvent
  split_ifs with hlt
  · simpa using hlt
  · exact h

theorem foldl_receive_length_le (es : List AndroidInputEvent)
    (q : List AndroidInputEvent) (h : q.length ≤ kMaxAndroidEventsPerFrame) :
    (es.foldl ReceiveGamepadEvent q).length ≤ kMaxAndroidEventsPerFrame := by
  induction es generalizing q with
  | nil => exact h
  | cons e rest ih => exact ih _ (receive_length_le q e h)

/-- Claim C3: the Android gamepad queue is capacity-bounded and drained
completely: ReceiveGamepadEvent appends when the queue holds fewer than the
capacity (100) and otherwise leaves the queue unchanged; any number of
enqueues starting from an empty queue leaves at most capacity-many events
for HandleGamepadEvents, and the queue is empty immediately after
HandleGamepadEvents returns. -/
theorem claimC3 :
    (∀ (q : List AndroidInputEvent) (e : AndroidInputEvent),
        (q.length < kMaxAndroidEventsPerFrame → ReceiveGamepadEvent q e = q ++ [e]) ∧
        (¬ q.length < kMaxAndroidEventsPerFrame → ReceiveGamepadEvent q e = q)) ∧
    (∀ es : List AndroidInputEvent,
        (es.foldl ReceiveGamepadEvent []).length ≤ kMaxAndroidEventsPerFrame) ∧
    (∀ (t : ℚ) (m : List (Int × Gamepad)) (q : List AndroidInputEvent),
        (HandleGamepadEvents t m q).2 = []) := by
  refine ⟨fun q e => ⟨fun h => ?_, fun h => ?_⟩, fun es => ?_, fun t m q => rfl⟩
  · simp [ReceiveGamepadEvent, h]
  · simp [ReceiveGamepadEvent, h]
  · exact foldl_receive_length_le es [] (by simp)

/-- Witness for claim C3 at concrete inputs. -/
theorem claimC3_witness :
    ReceiveGamepadEvent [] ⟨1, 0, 96, 0, 0⟩ = [(⟨1, 0, 96, 0, 0⟩ : AndroidInputEvent)] ∧
    (HandleGamepadEvents 0 [] [⟨1, 0, 96, 0, 0⟩]).2 = [] :=
  ⟨(claimC3.1 [] ⟨1, 0, 96, 0, 0⟩).1 (by decide),
   claimC3.2.2 0 [] [⟨1, 0, 96, 0, 0⟩]⟩

/-- Claim C4 (code bug): the lookup loop in GetGamepadCodeFromJavaKeyCode
scans only the first kControlCount = 20 entries of the 22-entry table, so
the listed keycodes AKEYCODE_MENU and AKEYCODE_BUTTON_MODE (entries 20 and
21) always yield kInvalid and a key-down for them changes no Button state,
although both appear in the table; keycodes among the first 20 entries do
map to their listed controls. -/
theorem claimC4_bug :
    GetGamepadCodeFromJavaKeyCode AKEYCODE_MENU = kInvalid ∧
    GetGamepadCodeFromJavaKeyCode AKEYCODE_BUTTON_MODE = kInvalid ∧
    (AKEYCODE_MENU, kButtonSelect) ∈ kJavaToGamepadMap ∧
    (AKEYCODE_BUTTON_MODE, kButtonMode) ∈ kJavaToGamepadMap ∧
    GetGamepadCodeFromJavaKeyCode AKEYCODE_BUTTON_SELECT = kButtonSelect ∧
    GetGamepadCodeFromJavaKeyCode AKEYCODE_DPAD_UP = kUp ∧
    ((lookupGamepad (processAndroidEvent 0 []
        ⟨3, AKEY_EVENT_ACTION_DOWN, AKEYCODE_MENU, 0, 0⟩) 3).buttons
      kButtonSelect).is_down = false := by
  decide

/-- Claim C6: ConvertHatToVector maps each of the 9 valid SDL hat values to
its fixed vector with components in -1..1, and every other input yields the
zero vector. -/
theorem claimC6 :
    (ConvertHatToVector SDL_HAT_UP = (0, -1) ∧
     ConvertHatToVector SDL_HAT_RIGHTUP = (1, -1) ∧
     ConvertHatToVector SDL_HAT_RIGHT = (1, 0) ∧
     ConvertHatToVector SDL_HAT_RIGHTDOWN = (1, 1) ∧
     ConvertHatToVector SDL_HAT_DOWN = (0, 1) ∧
     ConvertHatToVector SDL_HAT_LEFTDOWN = (-1, 1) ∧
     ConvertHatToVector SDL_HAT_LEFT = (-1, 0) ∧
     ConvertHatToVector SDL_HAT_LEFTUP = (-1, -1) ∧
     ConvertHatToVector SDL_HAT_CENTERED = (0, 0)) ∧
    ∀ h : Nat, h ≠ SDL_HAT_CENTERED → h ≠ SDL_HAT_UP → h ≠ SDL_HAT_RIGHT →
      h ≠ SDL_HAT_RIGHTUP → h ≠ SDL_HAT_DOWN → h ≠ SDL_HAT_RIGHTDOWN →
      h ≠ SDL_HAT_LEFT → h ≠ SDL_HAT_LEFTUP → h ≠ SDL_HAT_LEFTDOWN →
      ConvertHatToVector h = (0, 0) := by
  refine ⟨by decide, fun h h0 h1 h2 h3 h4 h6 h8 h9 h12 => ?_⟩
  unfold ConvertHatToVector
  split_ifs <;> first | rfl | contradiction

/-- Witness for claim C6: the invalid enumeration value 5 yields zero. -/
theorem claimC6_witness : ConvertHatToVector 5 = (0, 0) :=
  claimC6.2 5 (by decide) (by decide) (by decide) (by decide) (by decide)
    (by decide) (by decide) (by decide) (by decide)

/-- Claim C7 counterexample: the platform value -32768 (the Sint16 minimum
an SDL_JOYAXISMOTION event can carry) stores -32768 / 32767, which is
strictly below -1, so the stored result does not always lie in the closed
interval from -1 to 1. -/
theorem claimC7_counterexample :
    (HandleJoystickAxisEvent Joystick.init 0 (-32768)).axes 0 < -1 := by
  norm_num [HandleJoystickAxisEvent, Joystick.SetAxis, updFn, kJoystickAxisRange]

/-- Claim C7 (amended): axis events set axes[index] to raw / 32767, and for
every raw value in -32767..32767 the stored result lies in the closed
interval from -1 to 1 (so 32767 maps to 1, -32767 to -1 and 0 to 0); the
extreme value -32768 falls just below -1. -/
theorem claimC7_amended (j : Joystick) (index : Nat) (raw : Int) :
    (HandleJoystickAxisEvent j index raw).axes index = (raw : ℚ) / kJoystickAxisRange ∧
    (-32767 ≤ raw → raw ≤ 32767 →
      -1 ≤ (HandleJoystickAxisEvent j index raw).axes index ∧
      (HandleJoystickAxisEvent j index raw).axes index ≤ 1) := by
  have hval : (HandleJoystickAxisEvent j index raw).axes index =
      (raw : ℚ) / kJoystickAxisRange := by
    simp [HandleJoystickAxisEvent, Joystick.SetAxis, updFn]
  refine ⟨hval, fun hlo hhi => ?_⟩
  rw [hval]
  simp only [kJoystickAxisRange]
  constructor
  · rw [le_div_iff₀ (by norm_num)]
    have hc : ((-32767 : Int) : ℚ) ≤ (raw : ℚ) := by exact_mod_cast hlo
    push_cast at hc
    linarith
  · rw [div_le_one (by norm_num)]
    exact_mod_cast hhi

/-- Witness for claim C7 at the three named raw values and one interior
value. -/
theorem claimC7_witness :
    (HandleJoystickAxisEvent Joystick.init 2 32767).axes 2 = 1 ∧
    (HandleJoystickAxisEvent Joystick.init 2 (-32767)).axes 2 = -1 ∧
    (HandleJoystickAxisEvent Joystick.init 2 0).axes 2 = 0 ∧
    -1 ≤ (HandleJoystickAxisEvent Joystick.init 2 12345).axes 2 ∧
    (HandleJoystickAxisEvent Joystick.init 2 12345).axes 2 ≤ 1 :=
  ⟨by norm_num [HandleJoystickAxisEvent, Joystick.SetAxis, updFn, kJoystickAxisRange],
   by norm_num [HandleJoystickAxisEvent, Joystick.SetAxis, updFn, kJoystickAxisRange],
   by norm_num [HandleJoystickAxisEvent, Joystick.SetAxis, updFn, kJoystickAxisRange],
   ((claimC7_amended Joystick.init 2 12345).2 (by decide) (by decide)).1,
   ((claimC7_amended Joystick.init 2 12345).2 (by decide) (by decide)).2⟩

theorem handleGamepadMotion_buttons (t x y : ℚ) (g : Gamepad) :
    ((HandleGamepadMotion t x y g).buttons kLeft).is_down = decide (x < -t) ∧
    ((HandleGamepadMotion t x y g).buttons kRight).is_down = decide (x > t) ∧
    ((HandleGamepadMotion t x y g).buttons kUp).is_down = decide (y < -t) ∧
    ((HandleGamepadMotion t x y g).buttons kDown).is_down = decide (y > t) := by
  refine ⟨?_, ?_, ?_, ?_⟩ <;>
    simp [HandleGamepadMotion, Gamepad.UpdateButton, Button.Update, updFn,
      kLeft, kRight, kUp, kDown]

/-- Claim C8: a gamepad motion event with coordinates (x, y) overwrites the
four directional Buttons from threshold comparisons against the deadzone:
kLeft is down iff x is below the negated deadzone, kRight iff x is above
it, kUp iff y is below the negated deadzone, kDown iff y is above it,
whatever the Buttons held before. -/
theorem claimC8 (kGamepadHatThreshold x y : ℚ) (g : Gamepad) :
    (((HandleGamepadMotion kGamepadHatThreshold x y g).buttons kLeft).is_down = true ↔
      x < -kGamepadHatThreshold) ∧
    (((HandleGamepadMotion kGamepadHatThreshold x y g).buttons kRight).is_down = true ↔
      x > kGamepadHatThreshold) ∧
    (((HandleGamepadMotion kGamepadHatThreshold x y g).buttons kUp).is_down = true ↔
      y < -kGamepadHatThreshold) ∧
    (((HandleGamepadMotion kGamepadHatThreshold x y g).buttons kDown).is_down = true ↔
      y > kGamepadHatThreshold) := by
  have h := handleGamepadMotion_buttons kGamepadHatThreshold x y g
  exact ⟨by simp [h.1], by simp [h.2.1], by simp [h.2.2.1], by simp [h.2.2.2]⟩

/-- Claim C10: with a nonnegative deadzone, immediately after a motion event
the kLeft and kRight Buttons are never both down, nor are kUp and kDown. -/
theorem claimC10 (kGamepadHatThreshold x y : ℚ) (g : Gamepad)
    (hthr : 0 ≤ kGamepadHatThreshold) :
    ¬(((HandleGamepadMotion kGamepadHatThreshold x y g).buttons kLeft).is_down = true ∧
      ((HandleGamepadMotion kGamepadHatThreshold x y g).buttons kRight).is_down = true) ∧
    ¬(((HandleGamepadMotion kGamepadHatThreshold x y g).buttons kUp).is_down = true ∧
      ((HandleGamepadMotion kGamepadHatThreshold x y g).buttons kDown).is_down = true) := by
  have h := handleGamepadMotion_buttons kGamepadHatThreshold x y g
  constructor
  · rintro ⟨hl, hr⟩
    rw [h.1] at hl
    rw [h.2.1] at hr
    simp at hl hr
    linarith
  · rintro ⟨hu, hd⟩
    rw [h.2.2.1] at hu
    rw [h.2.2.2] at hd
    simp at hu hd
    linarith

/-- Witness for claim C10 with deadzone 1 and coordinates (2, 2). -/
theorem claimC10_witness :
    (0 : ℚ) ≤ 1 ∧
    ¬(((HandleGamepadMotion 1 2 2 (Gamepad.init 0)).buttons kLeft).is_down = true ∧
      ((HandleGamepadMotion 1 2 2 (Gamepad.init 0)).buttons kRight).is_down = true) :=
  ⟨by norm_num, (claimC10 1 2 2 (Gamepad.init 0) (by norm_num)).1⟩

/-- A one-slot pointer state holding an active contact with platform id 7. -/
def fingerUpDemoState : InputState :=
  ⟨[⟨7, (0, 0), (0, 0), true⟩], fun _ => Button.init, false, []⟩

/-- Claim C5 counterexample: on a contact-end event the source frees the
slot (RemovePointer) before marking the button released, so the operation
order differs from the claimed lookup-release-free order. -/
theorem claimC5_counterexample :
    (fingerUpCase fingerUpDemoState 7).log ≠
      (fingerUpCaseClaimOrder fingerUpDemoState 7).log := by
  decide

/-- Claim C5 (amended): on a contact-end event the handler looks up the
ordinal by platform id, frees the pointer slot, and then marks that
ordinal's Button released; the resulting pointer and button state agree
with the claimed release-then-free order, only the operation order
differs. -/
theorem claimC5_amended (s : InputState) (fid : Nat) :
    (fingerUpCase s fid).log =
      s.log ++ [PtrOp.find fid, PtrOp.remove (FindPointer s.pointers fid),
        PtrOp.button (FindPointer s.pointers fid) false] ∧
    (fingerUpCase s fid).pointers =
      listModify (fun p => { p with used := false }) (FindPointer s.pointers fid)
        s.pointers ∧
    (fingerUpCase s fid).pointerButtons =
      updFn s.pointerButtons (FindPointer s.pointers fid)
        ((s.pointerButtons (FindPointer s.pointers fid)).Update false) ∧
    (fingerUpCase s fid).touch_device = true ∧
    (fingerUpCase s fid).pointers = (fingerUpCaseClaimOrder s fid).pointers ∧
    (fingerUpCase s fid).pointerButtons = (fingerUpCaseClaimOrder s fid).pointerButtons := by
  refine ⟨?_, rfl, rfl, rfl, rfl, rfl⟩
  simp [fingerUpCase, InputState.findPointerOp, InputState.removePointerOp,
    InputState.updatePointerButtonOp]

/-- Claim C1 counterexample: a middle-button (SDL button index 2) down event
updates the Button of pointer ordinal 1, not ordinal 0: after the event,
pointer 0's button is still up and pointer 1's button is down. -/
theorem claimC1_counterexample :
    ((mouseButtonCase inputStateInit 2 true 1 3 4).pointerButtons 0).is_down = false ∧
    ((mouseButtonCase inputStateInit 2 true 1 3 4).pointerButtons 1).is_down = true := by
  decide

theorem listModify_getElem {α : Type} (f : α → α) (i j : Nat) (xs : List α) :
    (listModify f i xs)[j]? = if j = i then (xs[j]?).map f else xs[j]? := by
  induction xs generalizing i j with
  | nil => simp [listModify]
  | cons a t ih =>
      cases i with
      | zero => cases j <;> simp [listModify]
      | succ n =>
          cases j with
          | zero => simp [listModify]
          | succ m => simpa [listModify] using ih n m

/-- Claim C1 (amended): a mouse button event updates the Button of pointer
ordinal (button index - 1) - ordinal 0 only for the left button - while the
position write and the used flag always target pointer 0; no touch-identity
lookup is performed (the operation log gains only the button update), and no
pointer slot other than 0 changes. -/
theorem claimC1_amended (s : InputState) (sdl_button : Nat) (pressed : Bool)
    (windowID : Nat) (x y : Int) :
    (mouseButtonCase s sdl_button pressed windowID x y).pointerButtons =
      updFn s.pointerButtons (sdl_button - 1)
        ((s.pointerButtons (sdl_button - 1)).Update pressed) ∧
    (mouseButtonCase s sdl_button pressed windowID x y).log =
      s.log ++ [PtrOp.button (sdl_button - 1) pressed] ∧
    (mouseButtonCase s sdl_button pressed windowID x y).touch_device = false ∧
    (∀ j : Nat, j ≠ 0 →
      (mouseButtonCase s sdl_button pressed windowID x y).pointers[j]? =
        s.pointers[j]?) := by
  by_cases hw : windowID ≠ 0 <;>
    refine ⟨?_, ?_, ?_, fun j hj => ?_⟩ <;>
    simp [mouseButtonCase, InputState.updatePointerButtonOp, hw,
      listModify_getElem, *]

/-- Witness for claim C1: a left-button event leaves pointer slot 3
untouched. -/
theorem claimC1_witness :
    (mouseButtonCase inputStateInit 1 true 5 9 9).pointers[3]? =
      inputStateInit.pointers[3]? :=
  (claimC1_amended inputStateInit 1 true 5 9 9).2.2.2 3 (by decide)

/-- Claim C9: for a mouse button event, pointer 0's position is overwritten
with the event coordinates exactly when the windowID is nonzero, its used
flag is set, and its remaining fields are untouched. -/
theorem claimC9 (s : InputState) (sdl_button : Nat) (pressed : Bool)
    (windowID : Nat) (x y : Int) :
    (mouseButtonCase s sdl_button pressed windowID x y).pointers[0]? =
      (s.pointers[0]?).map (fun p =>
        { p with mousepos := if windowID ≠ 0 then (x, y) else p.mousepos
                 used := true }) := by
  by_cases hw : windowID ≠ 0 <;>
    · simp [mouseButtonCase, InputState.updatePointerButtonOp, hw,
        listModify_getElem]
      try (cases s.pointers[0]? <;> simp)

/-- Claim C2 counterexample: at current orientation 270 and reset
orientation 270 - not one of the claimed cross-cases - the source still
applies the extra 180-degree pre-rotation adjustment, so the computed
pre-correction differs from the claimed one. -/
theorem claimC2_counterexample : preCorrection 3 3 ≠ preCorrectionClaimed 3 3 := by
  intro hEq
  have h00 := congrFun (congrFun hEq 0) 0
  norm_num [preCorrection, preCorrectionClaimed, basePreCorrection, crossCase,
    rotY4, Matrix.one_apply, Matrix.cons_val_zero] at h00

/-- Claim C2 (amended): with correction enabled the final transforms are
post_correction * raw * pre_correction, identically for head, left eye and
right eye; the extra 180-degree pre-rotation adjustment is applied exactly
on the pairs (0,180), (180,0), (90,270), and at current orientation 270 for
every reset orientation other than 90 - so not on the cross-case (270,90)
and additionally on (270,0), (270,180) and (270,270). -/
theorem claimC2_amended :
    (∀ orient reset : Int,
        preCorrection orient reset =
          if adjustmentCase orient reset then basePreCorrection orient * rotY4 (-1) 0
          else basePreCorrection orient) ∧
    (∀ (h0 l0 r0 rh rl rr : M4) (o rs : Int),
        UpdateTransforms rh rl rr ⟨h0, l0, r0, o, rs, true⟩ =
          ⟨postCorrection o * rh * preCorrection o rs,
           postCorrection o * rl * preCorrection o rs,
           postCorrection o * rr * preCorrection o rs, o, rs, true⟩) := by
  constructor
  · intro o r
    by_cases h0 : o = 0
    · subst h0
      by_cases hr : r = 2 <;>
        simp [preCorrection, basePreCorrection, adjustmentCase, hr]
    · by_cases h1 : o = 1
      · subst h1
        by_cases hr : r = 3 <;>
          simp [preCorrection, basePreCorrection, adjustmentCase, hr, one_mul]
      · by_cases h2 : o = 2
        · subst h2
          by_cases hr : r = 0 <;>
            simp [preCorrection, basePreCorrection, adjustmentCase, hr]
        · by_cases h3 : o = 3
          · subst h3
            by_cases hr : r = 1 <;>
              simp [preCorrection, basePreCorrection, adjustmentCase, hr, one_mul]
          · simp [preCorrection, basePreCorrection, adjustmentCase, h0, h1, h2, h3]
  · intro h0 l0 r0 rh rl rr o rs
    rfl

end Fplbase
